import Mathlib

/-!
Shallow embedding of the poker-hand evaluator of PyPokerGUI
(`submission/cards.py` and `submission/hands.py`), together with theorems
settling the specification claims about it.

Conventions of the embedding:
* Python's `sorted(..., key=f)` is a stable ascending sort; it is modelled by
  `pySorted`, a left fold of a stable insertion (new elements go after equal
  keys, preserving input order among equal keys, exactly like Python).
* Python exceptions are modelled with `Except PyErr`: `max([])` raises
  `ValueError`, a string index out of range raises `IndexError`, and a dict
  lookup miss raises `KeyError`.
* `Card.Value` keeps the source's numeric encoding: ACE = 1 (lowest), KING = 13.
* `Hand.with_cards` in the source mutates the shared enum member; the pure
  result of one evaluation is modelled by `EvalHand`, and the mutation of the
  class-level attribute is modelled separately by `getBestHandSt`, which
  threads the attribute table `HandState` explicitly.
-/

namespace PyPoker

/-- Suits, as in `Card.Suit` of `cards.py` (HEARTS = 1 .. CLUBS = 4). -/
inductive Suit
  | hearts
  | spades
  | diamonds
  | clubs
deriving DecidableEq, Repr

/-- The numeric value of a suit, as in the Python `Suit` enum. -/
def Suit.value : Suit → Nat
  | .hearts => 1
  | .spades => 2
  | .diamonds => 3
  | .clubs => 4

/-- Card values, as in `Card.Value` of `cards.py`. -/
inductive Value
  | ace
  | two
  | three
  | four
  | five
  | six
  | seven
  | eight
  | nine
  | ten
  | jack
  | queen
  | king
deriving DecidableEq, Repr

/-- The numeric value of a card value: ACE = 1, TWO = 2, ..., KING = 13,
exactly the Python `Value` enum numbers (note that ACE is lowest). -/
def Value.value : Value → Nat
  | .ace => 1
  | .two => 2
  | .three => 3
  | .four => 4
  | .five => 5
  | .six => 6
  | .seven => 7
  | .eight => 8
  | .nine => 9
  | .ten => 10
  | .jack => 11
  | .queen => 12
  | .king => 13

/-- A playing card: a (suit, value) pair, as the Python `Card` class. -/
structure Card where
  suit : Suit
  value : Value
deriving DecidableEq, Repr

/-- The ten hand categories of the `Hand` enum in `hands.py`. -/
inductive Hand
  | highCard
  | pair
  | twoPair
  | threeOfAKind
  | straight
  | flush
  | fullHouse
  | fourOfAKind
  | straightFlush
  | royalFlush
deriving DecidableEq, Repr

/-- The result of one successful evaluation: the category together with the
card list that `with_cards` attaches to it. -/
structure EvalHand where
  hand : Hand
  cards : List Card
deriving DecidableEq, Repr

/-- Python exceptions that the modelled code can raise. -/
inductive PyErr
  | valueError
  | indexError
  | keyError
deriving DecidableEq, Repr

/-- Whether an `Except` result is a success. -/
def exceptIsOk : Except PyErr α → Bool
  | .ok _ => true
  | .error _ => false

/-- `l[len(l) - k:]` for `k ≤ len(l)`: the last `k` elements. Every slice of
this form in `hands.py` is guarded by a length check, so only that case is
exercised. -/
def lastN (k : Nat) (l : List α) : List α :=
  l.drop (l.length - k)

/-- Stable insertion for `pySorted`: the new element is placed after all
elements whose key is less than or equal to its own. -/
def insertSorted (key : Card → Nat) (x : Card) : List Card → List Card
  | [] => [x]
  | y :: ys => if key x < key y then x :: y :: ys else y :: insertSorted key x ys

/-- Python's `sorted(cards, key=...)`: stable ascending sort by a numeric key. -/
def pySorted (key : Card → Nat) (l : List Card) : List Card :=
  l.foldl (fun acc x => insertSorted key x acc) []

/-- Python's `max(groups, key=len)`: the first group of maximal length;
raises `ValueError` on an empty collection. -/
def pyMaxByLen : List (List Card) → Except PyErr (List Card)
  | [] => .error .valueError
  | g :: gs => .ok (gs.foldl (fun best x => if best.length < x.length then x else best) g)

/-- The grouping scan shared by `get_same_suit`, `get_same_values` and
`get_consecutive_values` in `hands.py`: for each index `i` not skipped, the
inner `j` loop collects the matching cards among all later cards
(`collect c rest`), the group `c :: matches` is emitted when it has more
than one element, and the next `matches.length` outer indices are skipped.
The last index is never a group start (`range(len(cards) - 1)`). -/
def scanGroups (collect : Card → List Card → List Card) : List Card → Nat → List (List Card)
  | [], _ => []
  | [_], _ => []
  | c :: rest, skp =>
    match skp with
    | Nat.succ k => scanGroups collect rest k
    | 0 =>
      let m := collect c rest
      if m.isEmpty then scanGroups collect rest 0
      else (c :: m) :: scanGroups collect rest m.length

/-- Matches of the inner loop of `get_same_suit`: all later cards of the same
suit. -/
def suitCollect (c : Card) (rest : List Card) : List Card :=
  rest.filter (fun x => decide (x.suit = c.suit))

/-- Matches of the inner loop of `get_same_values`: all later cards of the same
value (enum equality). -/
def valueCollect (c : Card) (rest : List Card) : List Card :=
  rest.filter (fun x => decide (x.value = c.value))

/-- Matches of the inner loop of `get_consecutive_values`: the card at offset
`j` matches when its numeric value equals the start value plus `j`. The offset
is positional, not deduplicated by rank. -/
def consecCollect (v : Nat) (j : Nat) : List Card → List Card
  | [] => []
  | x :: xs =>
    if x.value.value = v + j then x :: consecCollect v (j + 1) xs
    else consecCollect v (j + 1) xs

/-- `get_same_suit(cards)`: sort by suit value, scan, emit groups of size ≥ 2,
and return them reversed. -/
def getSameSuit (cards : List Card) : List (List Card) :=
  (scanGroups suitCollect (pySorted (fun c => c.suit.value) cards) 0).reverse

/-- `get_consecutive_values(cards)`: sort by card value, scan with the
positional offset match, emit groups of size ≥ 2, and return them reversed. -/
def getConsecutiveValues (cards : List Card) : List (List Card) :=
  (scanGroups (fun c rest => consecCollect c.value.value 1 rest)
    (pySorted (fun c => c.value.value) cards) 0).reverse

/-- `get_same_values(cards)`: sort by card value, scan, emit groups of size
≥ 2. Unlike its two siblings, the group list is NOT reversed. -/
def getSameValues (cards : List Card) : List (List Card) :=
  scanGroups valueCollect (pySorted (fun c => c.value.value) cards) 0

/-- The royal values set of `get_royal_flush`:
{ACE, KING, QUEEN, JACK, TEN}. -/
def royalValues : List Value :=
  [Value.ace, Value.king, Value.queen, Value.jack, Value.ten]

/-- Whether a card's value belongs to the royal values set. -/
def isRoyalValue (c : Card) : Bool :=
  royalValues.any (fun v => decide (v = c.value))

/-- The `suit_dict` of `get_royal_flush`: counts per suit in first-occurrence
(insertion) order, as a Python dict built by iteration. -/
def countsBySuit (cards : List Card) : List (Suit × Nat) :=
  cards.foldl (fun acc c =>
    if acc.any (fun p => decide (p.1 = c.suit)) then
      acc.map (fun p => if p.1 = c.suit then (p.1, p.2 + 1) else p)
    else acc ++ [(c.suit, 1)]) []

/-- `get_royal_flush(consecutive)`: for the first run whose values include all
royal values and in which some suit occurs at least 5 times among the
royal-valued cards, return those same-suited royal cards. -/
def getRoyalFlush (consecutive : List (List Card)) : Option EvalHand :=
  consecutive.findSome? fun cards =>
    if royalValues.all (fun v => cards.any (fun c => decide (c.value = v))) then
      let royalCards := cards.filter isRoyalValue
      match (countsBySuit royalCards).find? (fun p => decide (5 ≤ p.2)) with
      | some sc =>
        some ⟨Hand.royalFlush, cards.filter (fun c => isRoyalValue c && decide (c.suit = sc.1))⟩
      | none => none
    else none

/-- `get_straight_flush(consecutive)`: for each run, `max` over its suit
groups is computed BEFORE the length guards, so a run whose cards all have
distinct suits raises `ValueError`. -/
def getStraightFlush : List (List Card) → Except PyErr (Option EvalHand)
  | [] => .ok none
  | run :: rest =>
    match pyMaxByLen (getSameSuit run) with
    | .error e => .error e
    | .ok common =>
      if 5 ≤ run.length && 5 ≤ common.length then
        .ok (some ⟨Hand.straightFlush, lastN 5 (pySorted (fun c => c.value.value) common)⟩)
      else getStraightFlush rest

/-- `get_flush(cards)`: the largest suit group; raises `ValueError` when no
two cards share a suit. -/
def getFlush (cards : List Card) : Except PyErr (Option EvalHand) :=
  match pyMaxByLen (getSameSuit cards) with
  | .error e => .error e
  | .ok common =>
    if 5 ≤ common.length then
      .ok (some ⟨Hand.flush, lastN 5 (pySorted (fun c => c.value.value) common)⟩)
    else .ok none

/-- `get_straight(consecutive)`: the first run of length ≥ 5, keeping its last
five cards. -/
def getStraight (consecutive : List (List Card)) : Option EvalHand :=
  consecutive.findSome? fun run =>
    if 5 ≤ run.length then some ⟨Hand.straight, lastN 5 run⟩ else none

/-- `get_four_of_a_kind(same)`. -/
def getFourOfAKind (same : List (List Card)) : Option EvalHand :=
  same.findSome? fun g =>
    if 4 ≤ g.length then some ⟨Hand.fourOfAKind, lastN 4 g⟩ else none

/-- Python truthiness of the index variables of `get_full_house`: `None` and
`0` are falsy, any other integer is truthy. -/
def pyTruthy : Option Nat → Bool
  | none => false
  | some n => decide (n ≠ 0)

/-- The loop of `get_full_house`, with the source's falsy checks
(`if not three_of_a_kind_index`, `if three_of_a_kind_index and pair_index`)
kept as Python truthiness on the `Option Nat` indices. -/
def fullHouseLoop (same : List (List Card)) :
    List (List Card) → Nat → Option Nat → Option Nat → Option EvalHand
  | [], _, _, _ => none
  | g :: rest, i, ti, pi =>
    let ti' := if 3 ≤ g.length then (if pyTruthy ti then ti else some i) else ti
    let pi' := if 3 ≤ g.length then pi
               else if 2 ≤ g.length then (if pyTruthy pi then pi else some i) else pi
    if pyTruthy ti' && pyTruthy pi' then
      let tg := same.getD (ti'.getD 0) []
      let pg := same.getD (pi'.getD 0) []
      some ⟨Hand.fullHouse, lastN 3 tg ++ lastN 2 pg⟩
    else fullHouseLoop same rest (i + 1) ti' pi'

/-- `get_full_house(same)`. -/
def getFullHouse (same : List (List Card)) : Option EvalHand :=
  fullHouseLoop same same 0 none none

/-- `get_three_of_a_kind(same)`. -/
def getThreeOfAKind (same : List (List Card)) : Option EvalHand :=
  same.findSome? fun g =>
    if 3 ≤ g.length then some ⟨Hand.threeOfAKind, lastN 3 g⟩ else none

/-- `get_two_pair(same)`: the first two group indices of size ≥ 2, in the
order the group collection was emitted. -/
def getTwoPair (same : List (List Card)) : Option EvalHand :=
  match (List.range same.length).filter (fun i => decide (2 ≤ (same.getD i []).length)) with
  | i :: j :: _ =>
    some ⟨Hand.twoPair, lastN 2 (same.getD i []) ++ lastN 2 (same.getD j [])⟩
  | _ => none

/-- `get_pair(same)`. -/
def getPair (same : List (List Card)) : Option EvalHand :=
  same.findSome? fun g =>
    if 2 ≤ g.length then some ⟨Hand.pair, lastN 2 g⟩ else none

/-- `get_high_card(cards)`: Python's `max(cards, key=...)`, the first card of
maximal value; raises `ValueError` on an empty list. -/
def getHighCard (cards : List Card) : Except PyErr EvalHand :=
  match cards with
  | [] => .error .valueError
  | c :: rest =>
    .ok ⟨Hand.highCard, [rest.foldl (fun best x => if best.value.value < x.value.value then x else best) c]⟩

/-- `get_best_hand(cards)`: both groupings are computed once, then the ten
detectors run in the source's order, short-circuiting on the first match;
exceptions from `get_straight_flush`, `get_flush` and `get_high_card`
propagate. -/
def getBestHand (cards : List Card) : Except PyErr EvalHand :=
  let consecutive := getConsecutiveValues cards
  let same := getSameValues cards
  match getRoyalFlush consecutive with
  | some h => .ok h
  | none =>
    match getStraightFlush consecutive with
    | .error e => .error e
    | .ok (some h) => .ok h
    | .ok none =>
      match getFourOfAKind same with
      | some h => .ok h
      | none =>
        match getFullHouse same with
        | some h => .ok h
        | none =>
          match getFlush cards with
          | .error e => .error e
          | .ok (some h) => .ok h
          | .ok none =>
            match getStraight consecutive with
            | some h => .ok h
            | none =>
              match getThreeOfAKind same with
              | some h => .ok h
              | none =>
                match getTwoPair same with
                | some h => .ok h
                | none =>
                  match getPair same with
                  | some h => .ok h
                  | none => getHighCard cards

/-! ### Card parsing (`Card.from_str` of `cards.py`) -/

/-- The `suit_map` dict of `Card.from_str`. -/
def suitMapF : Char → Option Suit
  | 'H' => some .hearts
  | 'S' => some .spades
  | 'D' => some .diamonds
  | 'C' => some .clubs
  | _ => none

/-- The `value_map` dict of `Card.from_str`. -/
def valueMapF : Char → Option Value
  | 'A' => some .ace
  | '2' => some .two
  | '3' => some .three
  | '4' => some .four
  | '5' => some .five
  | '6' => some .six
  | '7' => some .seven
  | '8' => some .eight
  | '9' => some .nine
  | 'T' => some .ten
  | 'J' => some .jack
  | 'Q' => some .queen
  | 'K' => some .king
  | _ => none

/-- Python string indexing `card_str[i]`: raises `IndexError` out of range. -/
def pyStrGet : List Char → Nat → Except PyErr Char
  | [], _ => .error .indexError
  | c :: _, 0 => .ok c
  | _ :: rest, Nat.succ n => pyStrGet rest n

/-- The inner `try` of `Card.from_str` (the swapped order), whose `KeyError`s
are converted to `ValueError`; an `IndexError` propagates unchanged. -/
def fromStrFallback (s : List Char) : Except PyErr Card :=
  match pyStrGet s 1 with
  | .error e => .error e
  | .ok c1 =>
    match suitMapF c1 with
    | none => .error .valueError
    | some su =>
      match pyStrGet s 0 with
      | .error e => .error e
      | .ok c0 =>
        match valueMapF c0 with
        | none => .error .valueError
        | some v => .ok ⟨su, v⟩

/-- `Card.from_str(card_str)`: try suit from the first character and value
from the second; on a `KeyError` retry with the roles swapped; a second
`KeyError` becomes `ValueError`. `IndexError`s are not caught by the
`except KeyError` handlers and propagate. -/
def from_str (s : List Char) : Except PyErr Card :=
  match pyStrGet s 0 with
  | .error e => .error e
  | .ok c0 =>
    match suitMapF c0 with
    | none => fromStrFallback s
    | some su =>
      match pyStrGet s 1 with
      | .error e => .error e
      | .ok c1 =>
        match valueMapF c1 with
        | none => fromStrFallback s
        | some v => .ok ⟨su, v⟩

/-! ### The shared mutable enum state of `Hand.with_cards`

`Hand.with_cards` executes `self.cards = cards` on the shared, global enum
member and returns that member. A call of `get_best_hand` therefore performs
exactly one such assignment when it returns normally (only the first firing
detector reaches its `return ... .with_cards(...)`), overwriting whatever an
earlier call stored on the same member. The attribute table is modelled as an
explicit state `HandState`, threaded through `getBestHandSt`. -/

/-- The class-level `cards` attributes of the ten `Hand` members: `none` while
the attribute has never been assigned. -/
def HandState : Type := Hand → Option (List Card)

/-- The attribute table before any call: no member has a `cards` attribute. -/
def initState : HandState := fun _ => none

/-- One call of `get_best_hand` with the enum-attribute state made explicit:
on success the returned member's `cards` attribute is overwritten, and the
caller receives the member itself (whose payload is only reachable through
the shared state). -/
def getBestHandSt (s : HandState) (cards : List Card) : HandState × Except PyErr Hand :=
  match getBestHand cards with
  | .ok r => (fun h => if h = r.hand then some r.cards else s h, .ok r.hand)
  | .error e => (s, .error e)

/-! ### Concrete cards and claim inputs -/

def cAH : Card := ⟨.hearts, .ace⟩

def cKH : Card := ⟨.hearts, .king⟩

def cQH : Card := ⟨.hearts, .queen⟩

def cJH : Card := ⟨.hearts, .jack⟩

def cTH : Card := ⟨.hearts, .ten⟩

def cTD : Card := ⟨.diamonds, .ten⟩

def c2H : Card := ⟨.hearts, .two⟩

def c2D : Card := ⟨.diamonds, .two⟩

def c2C : Card := ⟨.clubs, .two⟩

def c3D : Card := ⟨.diamonds, .three⟩

def c3S : Card := ⟨.spades, .three⟩

def c3C : Card := ⟨.clubs, .three⟩

def c5H : Card := ⟨.hearts, .five⟩

def c5D : Card := ⟨.diamonds, .five⟩

def c6H : Card := ⟨.hearts, .six⟩

def c6D : Card := ⟨.diamonds, .six⟩

def c7H : Card := ⟨.hearts, .seven⟩

def c7S : Card := ⟨.spades, .seven⟩

def c7C : Card := ⟨.clubs, .seven⟩

def c8S : Card := ⟨.spades, .eight⟩

def c8H : Card := ⟨.hearts, .eight⟩

def c9H : Card := ⟨.hearts, .nine⟩

def c9C : Card := ⟨.clubs, .nine⟩

def c9S : Card := ⟨.spades, .nine⟩

def c9D : Card := ⟨.diamonds, .nine⟩

def cJD : Card := ⟨.diamonds, .jack⟩

def cKS : Card := ⟨.spades, .king⟩

def cKD : Card := ⟨.diamonds, .king⟩

/-- The spec's royal flush scenario: {AH, KH, QH, JH, TH}. -/
def royalInput : List Card := [cAH, cKH, cQH, cJH, cTH]

/-- An undersized input containing a duplicate card. -/
def dupShortInput : List Card := [c5H, c5H]

/-- The spec's full house scenario restricted to its five relevant cards:
{KS, KH, KD, 2C, 2D}. -/
def fullHouseInput : List Card := [cKS, cKH, cKD, c2C, c2D]

/-- A valid 7-card input whose distinct ranks contain the five consecutive
values 5,6,7,8,9, with rank 6 duplicated. -/
def dupRankStraightInput : List Card := [c5H, c6H, c6D, c7H, c8S, c9H, cKD]

/-- The spec's three-pairs scenario: {5H, 5D, 9C, 9S, 2H, 2D, KS}. -/
def threePairsInput : List Card := [c5H, c5D, c9C, c9S, c2H, c2D, cKS]

/-- A valid 5-card input (distinct cards, no pair, no flush) containing the
consecutive pair 2,3 on two different suits. -/
def fiveCardInput : List Card := [c2H, c3D, c7S, c9C, cKH]

/-- A valid 7-card set in one input order (ten of hearts first). -/
def permA : List Card := [c6H, c7C, c8S, c9D, cTH, cTD, c2C]

/-- The same card set with the two tens swapped (ten of diamonds first). -/
def permB : List Card := [c6H, c7C, c8S, c9D, cTD, cTH, c2C]

/-- First input of the two-call state experiment: a pair of twos. -/
def firstCallInput : List Card := [c2H, c2D, c7S, c9C, cKH]

/-- Second input of the two-call state experiment: a pair of threes. -/
def secondCallInput : List Card := [c3S, c3C, c8H, cJD, cKS]

deriving instance DecidableEq for Except

/-! ### Helper lemmas -/

theorem pyStrGet_zero (a : Char) (l : List Char) : pyStrGet (a :: l) 0 = .ok a := rfl

theorem pyStrGet_one (a b : Char) (l : List Char) : pyStrGet (a :: b :: l) 1 = .ok b := rfl

theorem pyStrGet_single_one (a : Char) : pyStrGet [a] 1 = .error .indexError := rfl

/-! ### Claim theorems -/

/-- C1: on the five-card input {AH, KH, QH, JH, TH} the royal flush detector
does not fire (ACE = 1 is the lowest value, so no consecutive run contains
both ace and king) and the evaluator returns Flush with the five hearts in
ascending value order with the ace first, not RoyalFlush; rank ordering does
not place ace above king. -/
theorem royal_input_evaluates_to_flush :
    getRoyalFlush (getConsecutiveValues royalInput) = none ∧
    getBestHand royalInput = .ok ⟨Hand.flush, [cAH, cTH, cJH, cQH, cKH]⟩ :=
  ⟨rfl, rfl⟩

/-- C2 counterexample: the two-card input [5H, 5H] has fewer than 5 cards and
contains a duplicate (suit, rank) pair, yet evaluation succeeds and returns an
evaluated hand instead of rejecting the input. -/
theorem undersized_duplicate_input_not_rejected :
    dupShortInput.length < 5 ∧ ¬ dupShortInput.Nodup ∧
    exceptIsOk (getBestHand dupShortInput) = true := by
  refine ⟨by decide, by decide, rfl⟩

/-- C2 amended: `get_best_hand` performs no input validation; an input with
fewer than 5 cards or duplicate cards is processed by the detectors directly,
and [5H, 5H] evaluates to Pair on those two duplicate cards. -/
theorem undersized_duplicate_input_evaluates_to_pair :
    getBestHand dupShortInput = .ok ⟨Hand.pair, [c5H, c5H]⟩ := rfl

/-- C3: on {KS, KH, KD, 2C, 2D} the full house detector returns no match
(its falsy guard treats the pair group at index 0 as not yet selected, so the
`three_of_a_kind_index and pair_index` test never becomes true) and the
evaluator falls through to ThreeOfAKind with the three kings, instead of the
claimed FullHouse. -/
theorem full_house_input_evaluates_to_three_of_a_kind :
    getFullHouse (getSameValues fullHouseInput) = none ∧
    getBestHand fullHouseInput = .ok ⟨Hand.threeOfAKind, [cKS, cKH, cKD]⟩ :=
  ⟨rfl, rfl⟩

/-- C4: the input [5H, 6H, 6D, 7H, 8S, 9H, KD] is a valid 7-card set whose
distinct ranks contain the five consecutive values 5,6,7,8,9, yet the run
grouper (which scans positions of the value-sorted list without deduplicating
ranks) produces no run of length ≥ 5, and the evaluator returns Pair rather
than Straight or stronger. -/
theorem duplicated_rank_breaks_straight_run :
    dupRankStraightInput.Nodup ∧
    ([5, 6, 7, 8, 9].all fun v =>
      (dupRankStraightInput.map fun c => c.value.value).contains v) = true ∧
    ((getConsecutiveValues dupRankStraightInput).all fun r => decide (r.length < 5)) = true ∧
    getBestHand dupRankStraightInput = .ok ⟨Hand.pair, [c6H, c6D]⟩ := by
  refine ⟨by decide, rfl, rfl, rfl⟩

/-- C5: on the three-pairs input {5H, 5D, 9C, 9S, 2H, 2D, KS} the evaluator
does not return TwoPair at all: the positional run scan groups 2H with 5D
(offset 3 equals the value difference), the straight flush detector then
computes `max` over the empty suit grouping of that bogus run and raises
ValueError. Had control reached it, the two pair detector itself would have
selected the two LOWEST pairs, because `get_same_values` emits groups in
ascending rank order (it lacks the reversal its sibling groupers have). -/
theorem three_pairs_input_raises_value_error :
    getBestHand threePairsInput = .error .valueError ∧
    getTwoPair (getSameValues threePairsInput) =
      some ⟨Hand.twoPair, [c2H, c2D, c5H, c5D]⟩ :=
  ⟨rfl, rfl⟩

/-- C6: the evaluator is not total over valid 5-card inputs: on the distinct
5-card set {2H, 3D, 7S, 9C, KH}, the run [2H, 3D] has no repeated suit, so
`get_straight_flush` computes `max` over an empty group list and raises
ValueError instead of returning an evaluated hand. -/
theorem valid_five_card_input_raises_value_error :
    fiveCardInput.length = 5 ∧ fiveCardInput.Nodup ∧
    getBestHand fiveCardInput = .error .valueError := by
  refine ⟨rfl, by decide, rfl⟩

/-- C7 counterexample: permA and permB are permutations of the same valid
7-card set (the two tens swapped), yet evaluating them yields different
results: the straight's relevant cards contain the ten of hearts in one order
and the ten of diamonds in the other. -/
theorem permuted_input_changes_result :
    permA.Perm permB ∧ getBestHand permA ≠ getBestHand permB := by
  refine ⟨((((List.Perm.swap cTD cTH [c2C]).cons c9D).cons c8S).cons c7C).cons c6H, by decide⟩

/-- C7 amended: evaluation is not order-independent: the stable value sort
keeps tied cards in input order, so which of two equal-rank cards enters the
run (and the returned relevant cards) depends on input order. Both orderings
of this set give Straight, but with the ten of hearts versus the ten of
diamonds as the straight's top card. -/
theorem permuted_input_changes_relevant_cards :
    getBestHand permA = .ok ⟨Hand.straight, [c6H, c7C, c8S, c9D, cTH]⟩ ∧
    getBestHand permB = .ok ⟨Hand.straight, [c6H, c7C, c8S, c9D, cTD]⟩ :=
  ⟨rfl, rfl⟩

/-- C8 counterexample: state written by one evaluation survives into the
next: after a second call that also returns Pair, the `cards` attribute
reachable from the first call's returned member no longer equals what the
first call stored — the previously returned result has been altered. -/
theorem later_call_mutates_earlier_result :
    (getBestHandSt initState firstCallInput).2 = .ok Hand.pair ∧
    (getBestHandSt ((getBestHandSt initState firstCallInput).1) secondCallInput).1 Hand.pair ≠
      ((getBestHandSt initState firstCallInput).1) Hand.pair := by
  refine ⟨rfl, by decide⟩

/-- C8 amended: `with_cards` stores the relevant cards as an attribute on the
shared global `Hand` enum member, so evaluator state persists across calls: a
first call returning Pair stores [2H, 2D] on the member, and a later call on a
different input that also returns Pair overwrites that attribute with
[3S, 3C], the second call's cards. -/
theorem with_cards_state_persists_across_calls :
    (getBestHandSt initState firstCallInput).2 = .ok Hand.pair ∧
    ((getBestHandSt initState firstCallInput).1) Hand.pair = some [c2H, c2D] ∧
    (getBestHandSt ((getBestHandSt initState firstCallInput).1) secondCallInput).2 =
      .ok Hand.pair ∧
    (getBestHandSt ((getBestHandSt initState firstCallInput).1) secondCallInput).1 Hand.pair =
      some [c3S, c3C] :=
  ⟨rfl, rfl, rfl, rfl⟩

/-- C9: for every two-character input, parsing succeeds exactly when one
character maps to a suit and the other to a value, in either order, and
fails with ValueError (the `Invalid card string` error) exactly when no such
assignment exists. -/
theorem from_str_ok_iff_suit_rank_assignment (c0 c1 : Char) :
    (exceptIsOk (from_str [c0, c1]) = true ↔
      ((suitMapF c0).isSome = true ∧ (valueMapF c1).isSome = true) ∨
      ((suitMapF c1).isSome = true ∧ (valueMapF c0).isSome = true)) ∧
    (from_str [c0, c1] = .error .valueError ↔
      ¬ (((suitMapF c0).isSome = true ∧ (valueMapF c1).isSome = true) ∨
        ((suitMapF c1).isSome = true ∧ (valueMapF c0).isSome = true))) := by
  cases h0 : suitMapF c0 <;> cases h1 : valueMapF c1 <;>
    cases h2 : suitMapF c1 <;> cases h3 : valueMapF c0 <;>
      simp [from_str, fromStrFallback, exceptIsOk, pyStrGet_zero, pyStrGet_one,
        h0, h1, h2, h3]

/-- C10: every input string of fewer than two characters makes `from_str`
raise IndexError (an unguarded character access), never the ValueError used
for unmappable characters. -/
theorem short_input_raises_index_error (s : List Char) (h : s.length < 2) :
    from_str s = .error .indexError := by
  rcases s with _ | ⟨c, _ | ⟨b, t⟩⟩
  · rfl
  · cases hc : suitMapF c <;>
      simp [from_str, fromStrFallback, hc, pyStrGet_zero, pyStrGet_single_one]
  · exfalso
    simp only [List.length_cons] at h
    omega

/-- C10 witness: the single-character string "H" has length below 2 and
parsing it raises IndexError. -/
theorem short_input_raises_index_error_witness :
    ([ 'H'] : List Char).length < 2 ∧ from_str [ 'H'] = .error .indexError :=
  ⟨by decide, short_input_raises_index_error [ 'H'] (by decide)⟩

end PyPoker
